import Mathlib

/-!
# simple-jwt-provider: transport handlers and credential provider

A shallow embedding of `internal/web/auth.go` (the three HTTP handlers) and of the
credential provider the handlers call (`Provider.Login`,
`Provider.CreatePasswordResetRequest`, `Provider.ResetPassword`).

Go values are embedded as follows.
* `error` is `Option GoError` (`none` is `nil`); a `(T, error)` result is a pair.
* Collaborators reached through an interface (storage, signer, mailer, the provider seen
  from the handlers) are records of functions over an abstract collaborator state, the way
  the `moq` mocks of the test-suite are records of functions; every call made through such
  a record is appended to a call list, the way the mocks track their calls.
-/

set_option linter.dupNamespace false

namespace SimpleJWTProvider

/-! ## Errors -/

/-- The package-level error values (`errors.New` sentinels) that the code compares against
with `errors.Is`. `storageErrUserNotFound` is `storage.ErrUserNotFound`; the other three
are `internal.ErrUserNotFound`, `internal.ErrIncorrectPassword` and
`internal.ErrNoValidTokenFound`. -/
inductive Sentinel where
  | storageErrUserNotFound
  | ErrUserNotFound
  | ErrIncorrectPassword
  | ErrNoValidTokenFound
  deriving DecidableEq, Repr

/-- A Go `error` value: a sentinel, some other `errors.New(text)` value, or
`fmt.Errorf(context + ": %w", cause)`. -/
inductive GoError where
  | sentinel (s : Sentinel)
  | other (text : String)
  | wrap (context : String) (cause : GoError)
  deriving DecidableEq, Repr

/-- `errors.Is(err, target)` for a sentinel target: walks the `Unwrap` chain and compares
each error of the chain with the target. -/
def errorsIs : GoError → Sentinel → Bool
  | .sentinel s, target => decide (s = target)
  | .other _, _ => false
  | .wrap _ cause, target => errorsIs cause target

/-- `err.Error()`. The texts of the sentinel values are declared outside the embedded code
and are taken as the parameter `sentinelText`; `fmt.Errorf("ctx: %w", cause)` prints the
context, a colon, a blank and the message of the cause. -/
def GoError.Error (sentinelText : Sentinel → String) : GoError → String
  | .sentinel s => sentinelText s
  | .other text => text
  | .wrap context cause => context ++ ": " ++ GoError.Error sentinelText cause

/-! ## Transport layer (`internal/web/auth.go`) -/

/-- A JSON document written to a response body: an object of string-valued fields, in the
order of the encoded struct. -/
abbrev JSONObject := List (String × String)

/-- The observable part of an `http.ResponseWriter`: the status code once the header has
been written, and the JSON documents written to the body. -/
structure ResponseWriter where
  status : Option Nat
  body : List JSONObject
  deriving DecidableEq, Repr

/-- A fresh response writer: header not yet written, empty body. -/
def ResponseWriter.fresh : ResponseWriter := { status := none, body := [] }

/-- `w.WriteHeader(code)`: the first call fixes the status code, later calls are ignored. -/
def ResponseWriter.WriteHeader (w : ResponseWriter) (code : Nat) : ResponseWriter :=
  match w.status with
  | none => { w with status := some code }
  | some _ => w

/-- `json.NewEncoder(w).Encode(v)`: writing to the body writes the header with status 200
first when no header has been written yet. -/
def ResponseWriter.Encode (w : ResponseWriter) (v : JSONObject) : ResponseWriter :=
  let w1 := w.WriteHeader 200
  { w1 with body := w1.body ++ [v] }

/-- The status code the client receives: 200 when the handler never wrote a header. -/
def ResponseWriter.statusCode (w : ResponseWriter) : Nat := w.status.getD 200

def StatusOK : Nat := 200
def StatusCreated : Nat := 201
def StatusNoContent : Nat := 204
def StatusBadRequest : Nat := 400
def StatusUnauthorized : Nat := 401
def StatusInternalServerError : Nat := 500

/-- Modelled from the spec: `writeError` of package `web` is called by the handlers but
declared in a file that is not part of the embedded sources. It answers with the given
status code and the JSON body `{"message": <message>}`, which is the response shape the
handler tests expect for every error case. -/
def writeError (w : ResponseWriter) (statusCode : Nat) (message : String) : ResponseWriter :=
  (w.WriteHeader statusCode).Encode [("message", message)]

/-- Modelled from the spec: `writeInternalServerError` of package `web`, declared next to
`writeError`. The handler tests expect status 500 and `{"message":"internal server error"}`
wherever a handler calls it. -/
def writeInternalServerError (w : ResponseWriter) : ResponseWriter :=
  writeError w StatusInternalServerError "internal server error"

/-- One `logrus` entry: level, message, and the attached fields. -/
structure LogEntry where
  level : String
  message : String
  fields : List (String × String)
  deriving DecidableEq, Repr

/-- A call made by a handler through the `Provider` interface of package `web`. -/
inductive ProviderCall where
  | Login (email password : String)
  | CreatePasswordResetRequest (email : String)
  | ResetPassword (email resetToken password : String)
  deriving DecidableEq, Repr

/-- The `Provider` interface the server holds in `s.p`, over a provider state `π`. -/
structure ProviderIface (π : Type) where
  Login : String → String → π → (String × Option GoError) × π
  CreatePasswordResetRequest : String → π → Option GoError × π
  ResetPassword : String → String → String → π → Option GoError × π

/-- What a handler run leaves behind: the response, the provider state, the calls made
through `s.p`, and the log entries. -/
structure HandlerResult (π : Type) where
  w : ResponseWriter
  p : π
  calls : List ProviderCall
  logs : List LogEntry

/-- The request body struct of `loginHandler`. -/
structure LoginRequestBody where
  EMail : String
  Password : String
  deriving DecidableEq, Repr

/-- The request body struct of `passwordResetRequestHandler`. -/
structure PasswordResetRequestBody where
  EMail : String
  deriving DecidableEq, Repr

/-- The request body struct of `passwordResetHandler`. -/
structure PasswordResetBody where
  EMail : String
  ResetToken : String
  Password : String
  deriving DecidableEq, Repr

/-- `Server.loginHandler`. `decoded` is the outcome of
`json.NewDecoder(r.Body).Decode(&requestBody)`: `none` when decoding failed, otherwise the
filled struct (a missing field is the empty string). The error text handed to
`logrus.WithError` is rendered by `errText`. -/
def loginHandler {π : Type} (s : ProviderIface π) (errText : GoError → String)
    (decoded : Option LoginRequestBody) (p : π) : HandlerResult π :=
  let w := ResponseWriter.fresh
  match decoded with
  | none => { w := writeError w StatusBadRequest "invalid JSON", p := p, calls := [], logs := [] }
  | some requestBody =>
    if requestBody.EMail = "" then
      { w := writeError w StatusBadRequest "email must be set", p := p, calls := [], logs := [] }
    else if requestBody.Password = "" then
      { w := writeError w StatusBadRequest "password must be set", p := p, calls := [], logs := [] }
    else
      match s.Login requestBody.EMail requestBody.Password p with
      | ((jwt, err), p1) =>
        let calls := [ProviderCall.Login requestBody.EMail requestBody.Password]
        match err with
        | some e =>
          if errorsIs e .ErrIncorrectPassword || errorsIs e .ErrUserNotFound then
            { w := writeError w StatusUnauthorized "invalid credentials", p := p1, calls := calls,
              logs := [{ level := "warning",
                         message := "somebody tried to login with invalid credentials",
                         fields := [("email", requestBody.EMail)] }] }
          else
            { w := writeInternalServerError w, p := p1, calls := calls,
              logs := [{ level := "error", message := "Failed to login User",
                         fields := [("error", errText e)] }] }
        | none =>
          -- marshalling a struct with one string field cannot fail, so the error branch
          -- of `Encode` (a failed write to the connection) leaves no response to observe
          { w := w.Encode [("access_token", jwt)], p := p1, calls := calls, logs := [] }

/-- `Server.passwordResetRequestHandler`; `decoded` as in `loginHandler`. -/
def passwordResetRequestHandler {π : Type} (s : ProviderIface π) (errText : GoError → String)
    (decoded : Option PasswordResetRequestBody) (p : π) : HandlerResult π :=
  let w := ResponseWriter.fresh
  match decoded with
  | none => { w := writeError w StatusBadRequest "invalid JSON", p := p, calls := [], logs := [] }
  | some requestBody =>
    if requestBody.EMail = "" then
      { w := writeError w StatusBadRequest "email must be set", p := p, calls := [], logs := [] }
    else
      match s.CreatePasswordResetRequest requestBody.EMail p with
      | (err, p1) =>
        let calls := [ProviderCall.CreatePasswordResetRequest requestBody.EMail]
        match err with
        | some e =>
          if errorsIs e .ErrUserNotFound then
            { w := w.WriteHeader StatusCreated, p := p1, calls := calls,
              logs := [{ level := "warning",
                         message := "somebody tried to create a reset-password-request for non existing User",
                         fields := [("email", requestBody.EMail)] }] }
          else
            { w := writeInternalServerError w, p := p1, calls := calls,
              logs := [{ level := "error", message := "Failed to create password-reset-request",
                         fields := [("error", errText e)] }] }
        | none => { w := w.WriteHeader StatusCreated, p := p1, calls := calls, logs := [] }

/-- `Server.passwordResetHandler`; `decoded` as in `loginHandler`. -/
def passwordResetHandler {π : Type} (s : ProviderIface π) (errText : GoError → String)
    (decoded : Option PasswordResetBody) (p : π) : HandlerResult π :=
  let w := ResponseWriter.fresh
  match decoded with
  | none => { w := writeError w StatusBadRequest "invalid JSON", p := p, calls := [], logs := [] }
  | some requestBody =>
    if requestBody.EMail = "" then
      { w := writeError w StatusBadRequest "email must be set", p := p, calls := [], logs := [] }
    else if requestBody.ResetToken = "" then
      { w := writeError w StatusBadRequest "reset-token must be set", p := p, calls := [], logs := [] }
    else if requestBody.Password = "" then
      { w := writeError w StatusBadRequest "password must be set", p := p, calls := [], logs := [] }
    else
      match s.ResetPassword requestBody.EMail requestBody.ResetToken requestBody.Password p with
      | (err, p1) =>
        let calls :=
          [ProviderCall.ResetPassword requestBody.EMail requestBody.ResetToken requestBody.Password]
        match err with
        | some e =>
          if errorsIs e .ErrNoValidTokenFound then
            { w := writeError w StatusBadRequest
                     "reset-token is invalid or token email combination is not correct",
              p := p1, calls := calls, logs := [] }
          else
            { w := writeInternalServerError w, p := p1, calls := calls,
              logs := [{ level := "error", message := "Failed to create password-reset-request",
                         fields := [("error", errText e)] }] }
        | none => { w := w.WriteHeader StatusNoContent, p := p1, calls := calls, logs := [] }

/-! ## Credential provider (`Provider` of package `internal`)

The file declaring `Provider` and its three operations is not part of the embedded
sources; only its test-suite (`internal/auth_test.go`) is. The operations are embedded from
the specification, section 4.1, and from what that test-suite pins down. -/

/-- User claims, `map[string]interface{}`: the provider hands them on verbatim and never
inspects them, so a claim value is kept as its JSON text. -/
abbrev Claims := List (String × String)

/-- The record `storage.User`. -/
structure User where
  EMail : String
  Password : List Nat
  Claims : Claims
  deriving DecidableEq, Repr

/-- The record `storage.Token` (`Typ` is the field `Type`). -/
structure Token where
  ID : Int
  EMail : String
  Token : String
  Typ : String
  CreatedAt : Nat
  deriving DecidableEq, Repr

/-- The token kind the provider creates and consumes. -/
def tokenTypeReset : String := "reset"

/-- A call made by the provider to one of its collaborators. -/
inductive Call where
  | User (email : String)
  | UpdateUser (user : User)
  | CreateToken (t : Token)
  | TokensByEMailAndToken (email token : String)
  | DeleteToken (id : Int)
  | Generate (email : String) (userClaims : Claims)
  | SendPasswordResetRequestEMail (recipient passwordResetToken : String) (claims : Claims)
  deriving DecidableEq, Repr

/-- The `Storage` interface (the repository), over a collaborator state `σ`. -/
structure Storage (σ : Type) where
  User : String → σ → (SimpleJWTProvider.User × Option GoError) × σ
  UpdateUser : SimpleJWTProvider.User → σ → Option GoError × σ
  CreateToken : Token → σ → (Int × Option GoError) × σ
  TokensByEMailAndToken : String → String → σ → (List Token × Option GoError) × σ
  DeleteToken : Int → σ → Option GoError × σ

/-- The `JWTGenerator` interface (the signer). -/
structure JWTGenerator (σ : Type) where
  Generate : String → Claims → σ → (String × Option GoError) × σ

/-- The `Mailer` interface (the notifier). -/
structure Mailer (σ : Type) where
  SendPasswordResetRequestEMail : String → String → Claims → σ → Option GoError × σ

/-- Library functions the provider relies on, taken as parameters:
`bcrypt.CompareHashAndPassword` (as the boolean "the password matches the hash"),
`bcrypt.GenerateFromPassword` at the configured cost (salted, hence state-dependent),
`crypto/rand.Read` (a stream of random values from which a buffer is filled),
`time.Now`, and the `%q` verb of `fmt` (`strconv.Quote`). -/
structure Runtime (σ : Type) where
  compareHashAndPassword : List Nat → String → Bool
  bcryptPassword : String → σ → List Nat × σ
  randRead : σ → (Nat → Nat) × σ
  now : σ → Nat
  quote : String → String

/-- The struct `Provider` with its three collaborators, and the library functions. -/
structure Provider (σ : Type) where
  Storage : Storage σ
  JWTGenerator : JWTGenerator σ
  Mailer : Mailer σ
  rt : Runtime σ

/-- The collaborator state together with the calls made so far. -/
structure World (σ : Type) where
  state : σ
  calls : List Call

/-- Record one more call and move to the collaborator state it left. -/
def World.step {σ : Type} (w : World σ) (c : Call) (s : σ) : World σ :=
  { state := s, calls := w.calls ++ [c] }

/-- The digits of `encoding/hex`: `hextable = "0123456789abcdef"`. -/
def hextable : List Char := "0123456789abcdef".toList

/-- `hex.EncodeToString`: every byte `v` becomes `hextable[v>>4]`, `hextable[v&0x0f]`. -/
def hexEncodeToString (src : List Nat) : String :=
  String.mk (src.flatMap fun v => [hextable.getD (v / 16) '0', hextable.getD (v % 16) '0'])

/-- Modelled from the spec: the reset-token generator of package `internal` (section 4.3):
a buffer of 32 bytes is filled from the secure random source and hex-encoded. -/
def generateResetToken {σ : Type} (p : Provider σ) (s : σ) : String × σ :=
  match p.rt.randRead s with
  | (stream, s1) => (hexEncodeToString ((List.range 32).map fun i => stream i % 256), s1)

/-- Modelled from the spec: `Provider.Login` (section 4.1, Authenticate), whose declaring
file is missing. Looks the user up; "not found" becomes `ErrUserNotFound`, any other lookup
failure is wrapped with the offending email; a password that does not verify gives
`ErrIncorrectPassword`; otherwise the signer is called with `(email, claims)` and its
result is returned as it is. -/
def Provider.Login {σ : Type} (p : Provider σ) (email password : String) (w : World σ) :
    (String × Option GoError) × World σ :=
  match p.Storage.User email w.state with
  | ((u, err), s1) =>
    let w1 := w.step (.User email) s1
    match err with
    | some e =>
      if errorsIs e .storageErrUserNotFound then
        (("", some (.sentinel .ErrUserNotFound)), w1)
      else
        (("", some (.wrap ("failed to query user with email " ++ p.rt.quote email) e)), w1)
    | none =>
      if p.rt.compareHashAndPassword u.Password password then
        match p.JWTGenerator.Generate email u.Claims w1.state with
        | (r, s2) => (r, w1.step (.Generate email u.Claims) s2)
      else
        (("", some (.sentinel .ErrIncorrectPassword)), w1)

/-- Modelled from the spec: `Provider.CreatePasswordResetRequest` (section 4.1,
InitiatePasswordReset), whose declaring file is missing. Looks the user up, generates a
token value, persists a token of kind "reset" for the email (the id is left at its zero
value, as the test-suite expects of the token handed to the repository), and has the
mailer send the value; no rollback when the mailer fails. -/
def Provider.CreatePasswordResetRequest {σ : Type} (p : Provider σ) (email : String)
    (w : World σ) : Option GoError × World σ :=
  match p.Storage.User email w.state with
  | ((u, err), s1) =>
    let w1 := w.step (.User email) s1
    match err with
    | some e =>
      if errorsIs e .storageErrUserNotFound then
        (some (.sentinel .ErrUserNotFound), w1)
      else
        (some (.wrap ("failed to query user with email " ++ p.rt.quote email) e), w1)
    | none =>
      match generateResetToken p w1.state with
      | (t, s2) =>
        let tok : Token :=
          { ID := 0, EMail := email, Token := t, Typ := tokenTypeReset, CreatedAt := p.rt.now s2 }
        match p.Storage.CreateToken tok s2 with
        | ((_, err2), s3) =>
          let w3 := w1.step (.CreateToken tok) s3
          match err2 with
          | some e =>
            (some (.wrap ("failed to create password-reset-token for email " ++ p.rt.quote email) e),
              w3)
          | none =>
            match p.Mailer.SendPasswordResetRequestEMail email t u.Claims w3.state with
            | (err3, s4) =>
              let w4 := w3.step (.SendPasswordResetRequestEMail email t u.Claims) s4
              match err3 with
              | some e => (some (.wrap "failed to send password-reset-email" e), w4)
              | none => (none, w4)

/-- The deletion loop of `ResetPassword`: the tokens are deleted by id, one after the
other; the first failure ends the loop and is wrapped. -/
def Provider.deleteTokens {σ : Type} (p : Provider σ) : List Token → World σ →
    Option GoError × World σ
  | [], w => (none, w)
  | t :: ts, w =>
    match p.Storage.DeleteToken t.ID w.state with
    | (err, s1) =>
      let w1 := w.step (.DeleteToken t.ID) s1
      match err with
      | some e => (some (.wrap "failed to delete token" e), w1)
      | none => Provider.deleteTokens p ts w1

/-- Modelled from the spec: `Provider.ResetPassword` (section 4.1, CompletePasswordReset),
whose declaring file is missing. Looks up the tokens for `(email, resetToken)`, keeps those
of kind "reset" and fails with `ErrNoValidTokenFound` when none is left; then looks the
user up, replaces the password by the hash of the new one, updates the user, and deletes
every token that was kept. Every failure of a collaborator is wrapped with the context the
specification gives for that step. For the token lookup the specification gives "failed to
find all available tokens"; the case "Error while find tokens" of
`TestProvider_ResetPassword` expects that context spelled "faild to find all avalilable
tokens", which the specification does not reproduce and this model does not follow. -/
def Provider.ResetPassword {σ : Type} (p : Provider σ) (email resetToken password : String)
    (w : World σ) : Option GoError × World σ :=
  match p.Storage.TokensByEMailAndToken email resetToken w.state with
  | ((tokens, err), s1) =>
    let w1 := w.step (.TokensByEMailAndToken email resetToken) s1
    match err with
    | some e => (some (.wrap "failed to find all available tokens" e), w1)
    | none =>
      let resetTokens := tokens.filter fun t => decide (t.Typ = tokenTypeReset)
      if resetTokens.isEmpty then
        (some (.sentinel .ErrNoValidTokenFound), w1)
      else
        match p.Storage.User email w1.state with
        | ((u, err2), s2) =>
          let w2 := w1.step (.User email) s2
          match err2 with
          | some e => (some (.wrap "failed to find user" e), w2)
          | none =>
            match p.rt.bcryptPassword password w2.state with
            | (securedPassword, s3) =>
              let u1 : User := { u with Password := securedPassword }
              match p.Storage.UpdateUser u1 s3 with
              | (err3, s4) =>
                let w4 := w2.step (.UpdateUser u1) s4
                match err3 with
                | some e => (some (.wrap "failed to update user" e), w4)
                | none => Provider.deleteTokens p resetTokens w4

/-! ## Observations on call lists and token values -/

/-- The ids passed to `DeleteToken`, in call order. -/
def deletedIDs (calls : List Call) : List Int :=
  calls.filterMap fun c => match c with
    | .DeleteToken id => some id
    | _ => none

/-- The collaborator state the repository is left in when the given ids are deleted one
after the other, starting from `s`. -/
def Storage.deleteAll {σ : Type} (st : Storage σ) (ids : List Int) (s : σ) : σ :=
  ids.foldl (fun acc id => (st.DeleteToken id acc).2) s

/-- The users passed to `UpdateUser`, in call order. -/
def updatedUsers (calls : List Call) : List User :=
  calls.filterMap fun c => match c with
    | .UpdateUser u => some u
    | _ => none

/-- The tokens passed to `CreateToken`, in call order. -/
def createdTokens (calls : List Call) : List Token :=
  calls.filterMap fun c => match c with
    | .CreateToken t => some t
    | _ => none

/-- The `(recipient, token value)` pairs passed to the mailer, in call order. -/
def sentMails (calls : List Call) : List (String × String) :=
  calls.filterMap fun c => match c with
    | .SendPasswordResetRequestEMail r t _ => some (r, t)
    | _ => none

/-- The `(email, claims)` pairs passed to the signer, in call order. -/
def signerCalls (calls : List Call) : List (String × Claims) :=
  calls.filterMap fun c => match c with
    | .Generate e cl => some (e, cl)
    | _ => none

/-- A character of the class `[0-9A-Fa-f]`. -/
def isHexChar (c : Char) : Bool :=
  (48 ≤ c.toNat && c.toNat ≤ 57) || (65 ≤ c.toNat && c.toNat ≤ 70) ||
    (97 ≤ c.toNat && c.toNat ≤ 102)

/-- A string matches `^[0-9A-Fa-f]{64}$`: exactly 64 characters, each a hex digit. -/
def matchesHex64 (s : String) : Bool :=
  decide (s.length = 64) && s.toList.all isHexChar

/-! ## Fixed-answer collaborators

Collaborators over the trivial state that answer every call with the values of a fixture,
as the mocks of `internal/auth_test.go` do. -/

/-- The values the mocked collaborators return. -/
structure Fixture where
  dbUser : User := { EMail := "", Password := [], Claims := [] }
  dbUserError : Option GoError := none
  dbToken : List Token := []
  dbTokenError : Option GoError := none
  dbUpdateUserError : Option GoError := none
  dbDeleteTokenError : Option GoError := none
  dbCreateTokenReturnError : Option GoError := none
  mailerError : Option GoError := none
  generatorJWT : String := ""
  generatorError : Option GoError := none

/-- The provider under test, built from a fixture. The stand-in for bcrypt stores the
character codes of the password; the random source yields `7 * i + 3` as its `i`-th value. -/
def mockProvider (f : Fixture) : Provider Unit :=
  { Storage :=
      { User := fun _ s => ((f.dbUser, f.dbUserError), s)
        UpdateUser := fun _ s => (f.dbUpdateUserError, s)
        CreateToken := fun _ s => ((0, f.dbCreateTokenReturnError), s)
        TokensByEMailAndToken := fun _ _ s => ((f.dbToken, f.dbTokenError), s)
        DeleteToken := fun _ s => (f.dbDeleteTokenError, s) }
    JWTGenerator := { Generate := fun _ _ s => ((f.generatorJWT, f.generatorError), s) }
    Mailer := { SendPasswordResetRequestEMail := fun _ _ _ s => (f.mailerError, s) }
    rt :=
      { compareHashAndPassword := fun hash password =>
          decide (hash = password.toList.map Char.toNat)
        bcryptPassword := fun password s => (password.toList.map Char.toNat, s)
        randRead := fun s => (fun i => 7 * i + 3, s)
        now := fun _ => 0
        quote := fun e => "\"" ++ e ++ "\"" } }

/-! ## In-memory collaborators

Collaborators whose state is a store of users and tokens, an outbox of mails and the list
of credentials signed, so that a call that was made is visible in the state it left. -/

/-- The state of the in-memory collaborators. -/
structure Mem where
  users : List User
  tokens : List Token
  nextID : Int
  outbox : List (String × String)
  signed : List (String × Claims)
  deriving DecidableEq, Repr

/-- The provider over the in-memory collaborators: users are found by email, a created
token gets the next id, tokens are found by owner and value and deleted by id, the mailer
appends to the outbox, the signer records what it signed. -/
def memProvider : Provider Mem :=
  { Storage :=
      { User := fun email m =>
          match m.users.find? fun u => decide (u.EMail = email) with
          | some u => ((u, none), m)
          | none =>
            (({ EMail := "", Password := [], Claims := [] },
              some (.sentinel .storageErrUserNotFound)), m)
        UpdateUser := fun u m =>
          (none, { m with users := m.users.map fun x => if x.EMail = u.EMail then u else x })
        CreateToken := fun t m =>
          ((m.nextID, none),
            { m with tokens := m.tokens ++ [{ t with ID := m.nextID }], nextID := m.nextID + 1 })
        TokensByEMailAndToken := fun email token m =>
          ((m.tokens.filter fun t => decide (t.EMail = email) && decide (t.Token = token), none), m)
        DeleteToken := fun id m =>
          (none, { m with tokens := m.tokens.filter fun t => !decide (t.ID = id) }) }
    JWTGenerator :=
      { Generate := fun email claims m =>
          (("jwt." ++ email, none), { m with signed := m.signed ++ [(email, claims)] }) }
    Mailer :=
      { SendPasswordResetRequestEMail := fun recipient token _ m =>
          (none, { m with outbox := m.outbox ++ [(recipient, token)] }) }
    rt :=
      { compareHashAndPassword := fun hash password =>
          decide (hash = password.toList.map Char.toNat)
        bcryptPassword := fun password m => (password.toList.map Char.toNat, m)
        randRead := fun m => (fun i => 7 * i + 3, m)
        now := fun _ => 0
        quote := fun e => "\"" ++ e ++ "\"" } }

/-- A store with one user (password "pw") who holds two reset tokens and one token of
another kind, all with the same value. -/
def memStore : Mem :=
  { users := [{ EMail := "test@test.test", Password := [112, 119],
                Claims := [("myCustomClaim", "\"value\"")] }]
    tokens := [{ ID := 4, EMail := "test@test.test", Token := "myToken1", Typ := "reset",
                 CreatedAt := 0 },
               { ID := 5, EMail := "test@test.test", Token := "myToken1", Typ := "other",
                 CreatedAt := 0 },
               { ID := 6, EMail := "test@test.test", Token := "myToken1", Typ := "reset",
                 CreatedAt := 0 }]
    nextID := 7
    outbox := []
    signed := [] }

/-- The in-memory world before any call. -/
def memWorld : World Mem := { state := memStore, calls := [] }

/-- The store `memStore` after a password-reset request for its user: the new token has
the next id and the value drawn from the random source, and the mail is in the outbox. -/
def memStoreAfterRequest : Mem :=
  { memStore with
    tokens := memStore.tokens ++
      [{ ID := 7, EMail := "test@test.test",
         Token := "030a11181f262d343b424950575e656c737a81888f969da4abb2b9c0c7ced5dc",
         Typ := "reset", CreatedAt := 0 }]
    nextID := 8
    outbox := [("test@test.test",
      "030a11181f262d343b424950575e656c737a81888f969da4abb2b9c0c7ced5dc")] }

/-- The store `memStore` after its user's password was replaced by "newPassword". -/
def memStoreAfterUpdate : Mem :=
  { memStore with
    users := [{ EMail := "test@test.test",
                Password := [110, 101, 119, 80, 97, 115, 115, 119, 111, 114, 100],
                Claims := [("myCustomClaim", "\"value\"")] }] }

/-- The world before any call. -/
def World.init : World Unit := { state := (), calls := [] }

/-! ## Expected responses and a fixed-answer provider -/

/-- The response `writeError` produces on a fresh writer: the given status and the body
`{"message": message}`. -/
def errorResponse (statusCode : Nat) (message : String) : ResponseWriter :=
  { status := some statusCode, body := [[("message", message)]] }

/-- A response with the given status and no body. -/
def emptyResponse (statusCode : Nat) : ResponseWriter :=
  { status := some statusCode, body := [] }

/-- A provider that answers every call with the same token and the same error, like the
`ProviderMock` of the handler tests. -/
def constProvider (jwt : String) (err : Option GoError) : ProviderIface Unit :=
  { Login := fun _ _ p => ((jwt, err), p)
    CreatePasswordResetRequest := fun _ p => (err, p)
    ResetPassword := fun _ _ _ p => (err, p) }

/-! ## Process configuration (`cmd/provider/config.go`) -/

/-- The struct `config`. -/
structure config where
  ServerAddress : String
  DatabaseHost : String
  DatabasePort : Int
  DatabaseName : String
  DatabaseUsername : String
  DatabasePassword : String
  DatabaseMigrationsFilePath : String
  JWTPrivateKey : String
  EnableAdminAPI : Bool
  AdminAPIUsername : String
  AdminAPIPassword : String
  deriving DecidableEq, Repr

/-- The composite literal with which `newConfig` starts: the four fields it names, every
other field at its zero value. -/
def presetConfig : config :=
  { ServerAddress := ":80"
    DatabaseHost := ""
    DatabasePort := 5432
    DatabaseName := "simple-auth-provider"
    DatabaseUsername := ""
    DatabasePassword := ""
    DatabaseMigrationsFilePath := ""
    JWTPrivateKey := ""
    EnableAdminAPI := false
    AdminAPIUsername := ""
    AdminAPIPassword := "" }

/-- The error `newConfig` creates when the admin API is enabled without credentials. -/
def errAdminCredentials : GoError :=
  .other "admin-api-password and admin-api-username must be set if api has been enabled"

/-- `newConfig`. `argParse` is `arg.Parse(&cfg)` of the go-arg library in the environment
of the process (command line and environment variables): it maps the configuration it is
handed to the configuration it leaves behind and the error it returns. -/
def newConfig (argParse : config → config × Option GoError) : config × Option GoError :=
  match argParse presetConfig with
  | (cfg, err) =>
    if cfg.EnableAdminAPI && (cfg.AdminAPIPassword == "" || cfg.AdminAPIUsername == "") then
      (cfg, some errAdminCredentials)
    else
      (cfg, err)

/-- An `arg.Parse` outcome in which only the two required options are given: every other
field is left as it was handed in. -/
def parseRequiredOnly : config → config × Option GoError :=
  fun c => ({ c with DatabaseMigrationsFilePath := "/migrations", JWTPrivateKey := "key" }, none)

/-- An `arg.Parse` outcome that sets the three admin options and returns `err`. -/
def parseAdmin (enable : Bool) (username password : String) (err : Option GoError) :
    config → config × Option GoError :=
  fun c => ({ c with EnableAdminAPI := enable, AdminAPIUsername := username,
                     AdminAPIPassword := password }, err)

/-! ## Transport layer: error mapping of the handlers -/

theorem writeError_fresh (statusCode : Nat) (message : String) :
    writeError ResponseWriter.fresh statusCode message = errorResponse statusCode message := by
  rfl

/-- C1: in `loginHandler`, for a body with non-empty email and password, when
`Provider.Login` returns an error matching `ErrIncorrectPassword` or `ErrUserNotFound` the
response is 401 with body `{"message":"invalid credentials"}`; hence the response of a run
that ended in `ErrUserNotFound` equals the response of a run that ended in
`ErrIncorrectPassword`. -/
theorem loginHandler_invalid_credentials {π π' : Type}
    (s : ProviderIface π) (s' : ProviderIface π') (errText errText' : GoError → String)
    (body body' : LoginRequestBody) (p p1 : π) (p' p1' : π') (jwt jwt' : String)
    (e e' : GoError)
    (hEMail : body.EMail ≠ "") (hPassword : body.Password ≠ "")
    (hEMail' : body'.EMail ≠ "") (hPassword' : body'.Password ≠ "")
    (hLogin : s.Login body.EMail body.Password p = ((jwt, some e), p1))
    (hLogin' : s'.Login body'.EMail body'.Password p' = ((jwt', some e'), p1'))
    (he : errorsIs e .ErrIncorrectPassword = true ∨ errorsIs e .ErrUserNotFound = true)
    (hIncorrect : errorsIs e' .ErrIncorrectPassword = true) :
    (loginHandler s errText (some body) p).w = errorResponse 401 "invalid credentials" ∧
    (loginHandler s errText (some body) p).w.statusCode = 401 ∧
    (errorsIs e .ErrUserNotFound = true →
      (loginHandler s errText (some body) p).w = (loginHandler s' errText' (some body') p').w) := by
  have h1 : (loginHandler s errText (some body) p).w = errorResponse 401 "invalid credentials" := by
    have hor : (errorsIs e .ErrIncorrectPassword || errorsIs e .ErrUserNotFound) = true := by
      rcases he with h | h <;> simp [h]
    simp only [loginHandler, if_neg hEMail, if_neg hPassword, hLogin, hor, if_true,
      StatusUnauthorized, writeError_fresh]
  have h2 : (loginHandler s' errText' (some body') p').w
      = errorResponse 401 "invalid credentials" := by
    simp only [loginHandler, if_neg hEMail', if_neg hPassword', hLogin', hIncorrect,
      Bool.true_or, if_true, StatusUnauthorized, writeError_fresh]
  refine ⟨h1, ?_, fun _ => h1.trans h2.symm⟩
  rw [h1]; rfl

theorem loginHandler_invalid_credentials_witness :
    (loginHandler (constProvider "" (some (.sentinel .ErrUserNotFound))) (fun _ => "")
        (some ⟨"not.found@test.test", "s3cr3t"⟩) ()).w
      = errorResponse 401 "invalid credentials" ∧
    (loginHandler (constProvider "" (some (.sentinel .ErrUserNotFound))) (fun _ => "")
        (some ⟨"not.found@test.test", "s3cr3t"⟩) ()).w.statusCode = 401 ∧
    (errorsIs (.sentinel .ErrUserNotFound) .ErrUserNotFound = true →
      (loginHandler (constProvider "" (some (.sentinel .ErrUserNotFound))) (fun _ => "")
        (some ⟨"not.found@test.test", "s3cr3t"⟩) ()).w
      = (loginHandler (constProvider "myNewJWT" (some (.sentinel .ErrIncorrectPassword)))
        (fun _ => "") (some ⟨"test.test@test.test", "n0p3"⟩) ()).w) :=
  loginHandler_invalid_credentials
    (constProvider "" (some (.sentinel .ErrUserNotFound)))
    (constProvider "myNewJWT" (some (.sentinel .ErrIncorrectPassword)))
    (fun _ => "") (fun _ => "")
    ⟨"not.found@test.test", "s3cr3t"⟩ ⟨"test.test@test.test", "n0p3"⟩ () () () ()
    "" "myNewJWT" (.sentinel .ErrUserNotFound) (.sentinel .ErrIncorrectPassword)
    (by decide) (by decide) (by decide) (by decide) rfl rfl (Or.inr rfl) rfl

/-- C2: in `passwordResetRequestHandler`, for a body with a non-empty email, the response
of a run in which `Provider.CreatePasswordResetRequest` returned an error matching
`ErrUserNotFound` equals the response of a run in which it returned nil: status 201 and no
body. -/
theorem passwordResetRequestHandler_not_found_like_success {π π' : Type}
    (s : ProviderIface π) (s' : ProviderIface π') (errText errText' : GoError → String)
    (body body' : PasswordResetRequestBody) (p p1 : π) (p' p1' : π') (e : GoError)
    (hEMail : body.EMail ≠ "") (hEMail' : body'.EMail ≠ "")
    (hCreate : s.CreatePasswordResetRequest body.EMail p = (some e, p1))
    (he : errorsIs e .ErrUserNotFound = true)
    (hCreate' : s'.CreatePasswordResetRequest body'.EMail p' = (none, p1')) :
    (passwordResetRequestHandler s errText (some body) p).w = emptyResponse 201 ∧
    (passwordResetRequestHandler s' errText' (some body') p').w = emptyResponse 201 ∧
    (passwordResetRequestHandler s errText (some body) p).w
      = (passwordResetRequestHandler s' errText' (some body') p').w ∧
    (passwordResetRequestHandler s errText (some body) p).w.statusCode = 201 ∧
    (passwordResetRequestHandler s errText (some body) p).w.body = [] := by
  have h1 : (passwordResetRequestHandler s errText (some body) p).w = emptyResponse 201 := by
    simp only [passwordResetRequestHandler, if_neg hEMail, hCreate, he, if_true]
    rfl
  have h2 : (passwordResetRequestHandler s' errText' (some body') p').w = emptyResponse 201 := by
    simp only [passwordResetRequestHandler, if_neg hEMail', hCreate']
    rfl
  refine ⟨h1, h2, h1.trans h2.symm, ?_, ?_⟩ <;> rw [h1] <;> rfl

theorem passwordResetRequestHandler_not_found_like_success_witness :
    (passwordResetRequestHandler (constProvider "" (some (.sentinel .ErrUserNotFound)))
        (fun _ => "") (some ⟨"test.test@test.test"⟩) ()).w = emptyResponse 201 ∧
    (passwordResetRequestHandler (constProvider "" none)
        (fun _ => "") (some ⟨"test.test@test.test"⟩) ()).w = emptyResponse 201 ∧
    (passwordResetRequestHandler (constProvider "" (some (.sentinel .ErrUserNotFound)))
        (fun _ => "") (some ⟨"test.test@test.test"⟩) ()).w
      = (passwordResetRequestHandler (constProvider "" none)
        (fun _ => "") (some ⟨"test.test@test.test"⟩) ()).w ∧
    (passwordResetRequestHandler (constProvider "" (some (.sentinel .ErrUserNotFound)))
        (fun _ => "") (some ⟨"test.test@test.test"⟩) ()).w.statusCode = 201 ∧
    (passwordResetRequestHandler (constProvider "" (some (.sentinel .ErrUserNotFound)))
        (fun _ => "") (some ⟨"test.test@test.test"⟩) ()).w.body = [] :=
  passwordResetRequestHandler_not_found_like_success
    (constProvider "" (some (.sentinel .ErrUserNotFound))) (constProvider "" none)
    (fun _ => "") (fun _ => "") ⟨"test.test@test.test"⟩ ⟨"test.test@test.test"⟩ () () () ()
    (.sentinel .ErrUserNotFound) (by decide) (by decide) rfl rfl rfl

/-- C3: in `passwordResetHandler`, for a body with non-empty email, reset_token and
password, the result of `Provider.ResetPassword` determines the status code: 204 when it
is nil, 400 with the message "reset-token is invalid or token email combination is not
correct" when the error matches `ErrNoValidTokenFound`, and 500 for every other error. -/
theorem passwordResetHandler_status {π : Type}
    (s : ProviderIface π) (errText : GoError → String) (body : PasswordResetBody)
    (p p1 : π) (err : Option GoError)
    (hEMail : body.EMail ≠ "") (hResetToken : body.ResetToken ≠ "")
    (hPassword : body.Password ≠ "")
    (hReset : s.ResetPassword body.EMail body.ResetToken body.Password p = (err, p1)) :
    (err = none → (passwordResetHandler s errText (some body) p).w.statusCode = 204) ∧
    (∀ e, err = some e → errorsIs e .ErrNoValidTokenFound = true →
      (passwordResetHandler s errText (some body) p).w.statusCode = 400 ∧
      (passwordResetHandler s errText (some body) p).w = errorResponse 400
        "reset-token is invalid or token email combination is not correct") ∧
    (∀ e, err = some e → errorsIs e .ErrNoValidTokenFound = false →
      (passwordResetHandler s errText (some body) p).w.statusCode = 500) := by
  refine ⟨?_, ?_, ?_⟩
  · intro h
    subst h
    simp only [passwordResetHandler, if_neg hEMail, if_neg hResetToken, if_neg hPassword, hReset]
    rfl
  · intro e h he
    subst h
    have hw : (passwordResetHandler s errText (some body) p).w = errorResponse 400
        "reset-token is invalid or token email combination is not correct" := by
      simp only [passwordResetHandler, if_neg hEMail, if_neg hResetToken, if_neg hPassword,
        hReset, he, if_true, StatusBadRequest, writeError_fresh]
    refine ⟨?_, hw⟩
    rw [hw]; rfl
  · intro e h he
    subst h
    simp only [passwordResetHandler, if_neg hEMail, if_neg hResetToken, if_neg hPassword,
      hReset, he]
    rfl

theorem passwordResetHandler_status_witness :
    (passwordResetHandler (constProvider "" (some (.sentinel .ErrNoValidTokenFound)))
        (fun _ => "") (some ⟨"test.test@test.test", "invalidResetToken", "new_s3cr3t"⟩) ()).w
      = errorResponse 400 "reset-token is invalid or token email combination is not correct" :=
  ((passwordResetHandler_status (constProvider "" (some (.sentinel .ErrNoValidTokenFound)))
      (fun _ => "") ⟨"test.test@test.test", "invalidResetToken", "new_s3cr3t"⟩ () ()
      (some (.sentinel .ErrNoValidTokenFound)) (by decide) (by decide) (by decide) rfl).2.1
    (.sentinel .ErrNoValidTokenFound) rfl rfl).2

/-! ## Credential provider: failure paths and the signer call -/

/-- C4: when the token list the repository returns for `(email, resetToken)` is empty or
holds only entries whose kind is not "reset", `ResetPassword` fails with
`ErrNoValidTokenFound`, and the lookup is the only collaborator call it makes: no user is
updated and no token is deleted. -/
theorem ResetPassword_no_valid_token {σ : Type} (p : Provider σ)
    (email resetToken password : String) (w : World σ) (tokens : List Token) (s1 : σ)
    (hLookup : p.Storage.TokensByEMailAndToken email resetToken w.state = ((tokens, none), s1))
    (hKind : ∀ t ∈ tokens, t.Typ ≠ "reset") :
    (p.ResetPassword email resetToken password w).1 = some (.sentinel .ErrNoValidTokenFound) ∧
    (p.ResetPassword email resetToken password w).2.calls
      = w.calls ++ [Call.TokensByEMailAndToken email resetToken] ∧
    (p.ResetPassword email resetToken password w).2.state = s1 ∧
    updatedUsers (p.ResetPassword email resetToken password w).2.calls = updatedUsers w.calls ∧
    deletedIDs (p.ResetPassword email resetToken password w).2.calls = deletedIDs w.calls := by
  have hfilter : (tokens.filter fun t => decide (t.Typ = tokenTypeReset)) = [] := by
    rw [List.filter_eq_nil_iff]
    intro t ht
    simpa [tokenTypeReset] using hKind t ht
  have hrun : p.ResetPassword email resetToken password w
      = (some (.sentinel .ErrNoValidTokenFound),
          w.step (.TokensByEMailAndToken email resetToken) s1) := by
    simp only [Provider.ResetPassword, hLookup, hfilter, List.isEmpty_nil, if_true]
  rw [hrun]
  simp [World.step, updatedUsers, deletedIDs, List.filterMap_append]

theorem ResetPassword_no_valid_token_witness :
    ((mockProvider { dbToken := [⟨5, "email", "myToken2", "other", 0⟩] }).ResetPassword
        "email" "resetToken" "newPassword" World.init).1
      = some (.sentinel .ErrNoValidTokenFound) ∧
    ((mockProvider { dbToken := [⟨5, "email", "myToken2", "other", 0⟩] }).ResetPassword
        "email" "resetToken" "newPassword" World.init).2.calls
      = [Call.TokensByEMailAndToken "email" "resetToken"] :=
  have h := ResetPassword_no_valid_token
    (mockProvider { dbToken := [⟨5, "email", "myToken2", "other", 0⟩] })
    "email" "resetToken" "newPassword" World.init [⟨5, "email", "myToken2", "other", 0⟩] () rfl
    (by decide)
  ⟨h.1, h.2.1⟩

/-- C5: `Login` keeps "not found" and "incorrect credential" apart. When the repository
reports no user for the email, `Login` fails with `ErrUserNotFound` whatever the password;
when the repository returns a user and the password does not verify against the stored
hash, `Login` fails with `ErrIncorrectPassword`, which does not match `ErrUserNotFound`.
In both cases the returned credential is the empty string, the user lookup is the only
collaborator call, and the collaborators are left in the state the lookup left them in, so
the signer is not invoked. -/
theorem Login_failure_kinds {σ : Type} (p : Provider σ) (email password : String)
    (w : World σ) (u : User) (err : Option GoError) (s1 : σ)
    (hUser : p.Storage.User email w.state = ((u, err), s1)) :
    (∀ e, err = some e → errorsIs e .storageErrUserNotFound = true →
      (p.Login email password w).1 = ("", some (.sentinel .ErrUserNotFound)) ∧
      (p.Login email password w).2.calls = w.calls ++ [Call.User email] ∧
      signerCalls (p.Login email password w).2.calls = signerCalls w.calls ∧
      (p.Login email password w).2.state = s1) ∧
    (err = none → p.rt.compareHashAndPassword u.Password password = false →
      (p.Login email password w).1 = ("", some (.sentinel .ErrIncorrectPassword)) ∧
      (∀ e, (p.Login email password w).1.2 = some e → errorsIs e .ErrUserNotFound = false) ∧
      (p.Login email password w).2.calls = w.calls ++ [Call.User email] ∧
      signerCalls (p.Login email password w).2.calls = signerCalls w.calls ∧
      (p.Login email password w).2.state = s1) := by
  constructor
  · intro e he hnf
    subst he
    have hrun : p.Login email password w
        = (("", some (.sentinel .ErrUserNotFound)), w.step (.User email) s1) := by
      simp only [Provider.Login, hUser, hnf, if_true]
    rw [hrun]
    simp [World.step, signerCalls, List.filterMap_append]
  · intro he hpw
    subst he
    have hrun : p.Login email password w
        = (("", some (.sentinel .ErrIncorrectPassword)), w.step (.User email) s1) := by
      simp [Provider.Login, hUser, hpw]
    rw [hrun]
    refine ⟨rfl, ?_, ?_, ?_, rfl⟩
    · intro e he
      simp only [Option.some.injEq] at he
      subst he
      rfl
    · simp [World.step]
    · simp [World.step, signerCalls, List.filterMap_append]

theorem Login_failure_kinds_witness :
    ((memProvider.Login "test@test.test" "wrongPassword" memWorld).1
        = ("", some (.sentinel .ErrIncorrectPassword)) ∧
      (memProvider.Login "test@test.test" "wrongPassword" memWorld).2.calls
        = [Call.User "test@test.test"] ∧
      (memProvider.Login "test@test.test" "wrongPassword" memWorld).2.state = memStore ∧
      (memProvider.Login "test@test.test" "wrongPassword" memWorld).2.state.signed = []) ∧
    ((memProvider.Login "not@existing.user" "password" memWorld).1
        = ("", some (.sentinel .ErrUserNotFound)) ∧
      (memProvider.Login "not@existing.user" "password" memWorld).2.calls
        = [Call.User "not@existing.user"] ∧
      (memProvider.Login "not@existing.user" "password" memWorld).2.state = memStore ∧
      (memProvider.Login "not@existing.user" "password" memWorld).2.state.signed = []) :=
  have hWrong := (Login_failure_kinds memProvider "test@test.test" "wrongPassword" memWorld
    ⟨"test@test.test", [112, 119], [("myCustomClaim", "\"value\"")]⟩ none memStore rfl).2
    rfl (by decide)
  have hUnknown := (Login_failure_kinds memProvider "not@existing.user" "password" memWorld
    ⟨"", [], []⟩ (some (.sentinel .storageErrUserNotFound)) memStore rfl).1
    (.sentinel .storageErrUserNotFound) rfl rfl
  ⟨⟨hWrong.1, hWrong.2.2.1, hWrong.2.2.2.2, by rw [hWrong.2.2.2.2]; rfl⟩,
   ⟨hUnknown.1, hUnknown.2.1, hUnknown.2.2.2, by rw [hUnknown.2.2.2]; rfl⟩⟩

/-- C6: when the repository returns a user and the password verifies against the stored
hash, `Login` invokes the signer exactly once, with the email and the stored claims of the
user, and returns what the signer returned: the credential string unchanged, with a nil
error when the signer gave none. -/
theorem Login_success {σ : Type} (p : Provider σ) (email password : String)
    (w : World σ) (u : User) (s1 s2 : σ) (jwt : String) (gerr : Option GoError)
    (hUser : p.Storage.User email w.state = ((u, none), s1))
    (hVerify : p.rt.compareHashAndPassword u.Password password = true)
    (hSign : p.JWTGenerator.Generate email u.Claims s1 = ((jwt, gerr), s2)) :
    (p.Login email password w).1 = (jwt, gerr) ∧
    (gerr = none → (p.Login email password w).1 = (jwt, none)) ∧
    (p.Login email password w).2.calls
      = w.calls ++ [Call.User email, Call.Generate email u.Claims] ∧
    signerCalls (p.Login email password w).2.calls = signerCalls w.calls ++ [(email, u.Claims)] := by
  have hrun : p.Login email password w
      = ((jwt, gerr), (w.step (.User email) s1).step (.Generate email u.Claims) s2) := by
    simp [Provider.Login, hUser, hVerify, World.step, hSign]
  rw [hrun]
  refine ⟨rfl, fun h => by rw [h], ?_, ?_⟩
  · simp [World.step]
  · simp [World.step, signerCalls, List.filterMap_append]

theorem Login_success_witness :
    ((mockProvider { dbUser := ⟨"test@test.test", [112, 119], [("myCustomClaim", "\"value\"")]⟩,
                     generatorJWT := "myJWT" }).Login "test@test.test" "pw" World.init).1
      = ("myJWT", none) ∧
    ((mockProvider { dbUser := ⟨"test@test.test", [112, 119], [("myCustomClaim", "\"value\"")]⟩,
                     generatorJWT := "myJWT" }).Login "test@test.test" "pw" World.init).2.calls
      = [Call.User "test@test.test",
         Call.Generate "test@test.test" [("myCustomClaim", "\"value\"")]] :=
  have h := Login_success
    (mockProvider { dbUser := ⟨"test@test.test", [112, 119], [("myCustomClaim", "\"value\"")]⟩,
                    generatorJWT := "myJWT" })
    "test@test.test" "pw" World.init
    ⟨"test@test.test", [112, 119], [("myCustomClaim", "\"value\"")]⟩ () () "myJWT" none
    rfl (by decide) rfl
  ⟨h.1, h.2.2.1⟩

/-- C7: when the repository reports no user for the email, `CreatePasswordResetRequest`
fails with `ErrUserNotFound`; the user lookup is the only collaborator call and the
collaborators are left in the state the lookup left them in: no token is created and the
mailer is not invoked. -/
theorem CreatePasswordResetRequest_user_not_found {σ : Type} (p : Provider σ) (email : String)
    (w : World σ) (u : User) (e : GoError) (s1 : σ)
    (hUser : p.Storage.User email w.state = ((u, some e), s1))
    (hNotFound : errorsIs e .storageErrUserNotFound = true) :
    (p.CreatePasswordResetRequest email w).1 = some (.sentinel .ErrUserNotFound) ∧
    (p.CreatePasswordResetRequest email w).2.calls = w.calls ++ [Call.User email] ∧
    createdTokens (p.CreatePasswordResetRequest email w).2.calls = createdTokens w.calls ∧
    sentMails (p.CreatePasswordResetRequest email w).2.calls = sentMails w.calls ∧
    (p.CreatePasswordResetRequest email w).2.state = s1 := by
  have hrun : p.CreatePasswordResetRequest email w
      = (some (.sentinel .ErrUserNotFound), w.step (.User email) s1) := by
    simp only [Provider.CreatePasswordResetRequest, hUser, hNotFound, if_true]
  rw [hrun]
  simp [World.step, createdTokens, sentMails, List.filterMap_append]

theorem CreatePasswordResetRequest_user_not_found_witness :
    (memProvider.CreatePasswordResetRequest "not@existing.user" memWorld).1
      = some (.sentinel .ErrUserNotFound) ∧
    (memProvider.CreatePasswordResetRequest "not@existing.user" memWorld).2.calls
      = [Call.User "not@existing.user"] ∧
    (memProvider.CreatePasswordResetRequest "not@existing.user" memWorld).2.state = memStore ∧
    (memProvider.CreatePasswordResetRequest "not@existing.user" memWorld).2.state.tokens
      = memStore.tokens ∧
    (memProvider.CreatePasswordResetRequest "not@existing.user" memWorld).2.state.outbox = [] :=
  have h := CreatePasswordResetRequest_user_not_found memProvider "not@existing.user" memWorld
    ⟨"", [], []⟩ (.sentinel .storageErrUserNotFound) memStore rfl rfl
  ⟨h.1, h.2.1, h.2.2.2.2, by rw [h.2.2.2.2], by rw [h.2.2.2.2]; rfl⟩

/-! ## Credential provider: token creation and consumption -/

theorem isHexChar_hextable (n : Nat) (h : n < 16) : isHexChar (hextable.getD n '0') = true := by
  interval_cases n <;> decide

theorem hexEncodeToString_length (src : List Nat) :
    (hexEncodeToString src).length = 2 * src.length := by
  induction src with
  | nil => rfl
  | cons v vs ih =>
    simp only [hexEncodeToString, String.length, List.flatMap_cons, List.length_append,
      List.length_cons, List.length_nil] at ih ⊢
    omega

theorem hexEncodeToString_all_hex (src : List Nat) (h : ∀ v ∈ src, v < 256) :
    (hexEncodeToString src).toList.all isHexChar = true := by
  simp only [hexEncodeToString, String.toList, List.all_eq_true, List.mem_flatMap]
  rintro c ⟨v, hv, hc⟩
  have hv256 := h v hv
  simp only [List.mem_cons, List.mem_singleton, List.not_mem_nil, or_false] at hc
  rcases hc with rfl | rfl
  · exact isHexChar_hextable _ (by omega)
  · exact isHexChar_hextable _ (Nat.mod_lt _ (by decide))

theorem generateResetToken_matchesHex64 {σ : Type} (p : Provider σ) (s : σ) :
    matchesHex64 (generateResetToken p s).1 = true := by
  simp only [generateResetToken, matchesHex64, Bool.and_eq_true, decide_eq_true_eq]
  constructor
  · rw [hexEncodeToString_length]
    simp
  · apply hexEncodeToString_all_hex
    intro v hv
    simp only [List.mem_map] at hv
    obtain ⟨i, _, rfl⟩ := hv
    exact Nat.mod_lt _ (by decide)

/-- C8: for an existing user, when the repository stores the token and the mailer sends
the mail, `CreatePasswordResetRequest` succeeds having created exactly one token, of kind
"reset" and owner `email`, whose value matches `^[0-9A-Fa-f]{64}$`, and having sent
exactly one mail, to `email`, carrying that same value; the collaborators are left in the
state in which the repository stored that token and the mailer then sent that mail. -/
theorem CreatePasswordResetRequest_success {σ : Type} (p : Provider σ) (email : String)
    (w : World σ) (u : User) (s1 s3 s4 : σ) (id : Int)
    (hUser : p.Storage.User email w.state = ((u, none), s1))
    (hCreate : p.Storage.CreateToken
        { ID := 0, EMail := email, Token := (generateResetToken p s1).1, Typ := "reset",
          CreatedAt := p.rt.now (generateResetToken p s1).2 }
        (generateResetToken p s1).2 = ((id, none), s3))
    (hMail : p.Mailer.SendPasswordResetRequestEMail email (generateResetToken p s1).1 u.Claims s3
        = (none, s4)) :
    ∃ value createdAt,
      matchesHex64 value = true ∧
      (p.CreatePasswordResetRequest email w).1 = none ∧
      (p.CreatePasswordResetRequest email w).2.calls
        = w.calls ++ [Call.User email,
            Call.CreateToken
              { ID := 0, EMail := email, Token := value, Typ := "reset", CreatedAt := createdAt },
            Call.SendPasswordResetRequestEMail email value u.Claims] ∧
      createdTokens (p.CreatePasswordResetRequest email w).2.calls
        = createdTokens w.calls ++
            [{ ID := 0, EMail := email, Token := value, Typ := "reset", CreatedAt := createdAt }] ∧
      sentMails (p.CreatePasswordResetRequest email w).2.calls
        = sentMails w.calls ++ [(email, value)] ∧
      (p.Storage.CreateToken
          { ID := 0, EMail := email, Token := value, Typ := "reset", CreatedAt := createdAt }
          (generateResetToken p s1).2).2 = s3 ∧
      (p.Mailer.SendPasswordResetRequestEMail email value u.Claims s3).2 = s4 ∧
      (p.CreatePasswordResetRequest email w).2.state = s4 := by
  refine ⟨(generateResetToken p s1).1, p.rt.now (generateResetToken p s1).2,
    generateResetToken_matchesHex64 p s1, ?_⟩
  have hrun : p.CreatePasswordResetRequest email w
      = (none, ((w.step (.User email) s1).step
          (.CreateToken { ID := 0, EMail := email, Token := (generateResetToken p s1).1,
                          Typ := "reset", CreatedAt := p.rt.now (generateResetToken p s1).2 }) s3).step
          (.SendPasswordResetRequestEMail email (generateResetToken p s1).1 u.Claims) s4) := by
    simp only [Provider.CreatePasswordResetRequest, hUser, World.step, tokenTypeReset, hCreate,
      hMail]
  rw [hrun, hCreate, hMail]
  simp [World.step, createdTokens, sentMails, List.filterMap_append]

theorem CreatePasswordResetRequest_success_witness :
    ∃ value createdAt,
      matchesHex64 value = true ∧
      (memProvider.CreatePasswordResetRequest "test@test.test" memWorld).1 = none ∧
      (memProvider.CreatePasswordResetRequest "test@test.test" memWorld).2.calls
        = memWorld.calls ++ [Call.User "test@test.test",
            Call.CreateToken
              { ID := 0, EMail := "test@test.test", Token := value, Typ := "reset",
                CreatedAt := createdAt },
            Call.SendPasswordResetRequestEMail "test@test.test" value
              [("myCustomClaim", "\"value\"")]] ∧
      createdTokens (memProvider.CreatePasswordResetRequest "test@test.test" memWorld).2.calls
        = createdTokens memWorld.calls ++
            [{ ID := 0, EMail := "test@test.test", Token := value, Typ := "reset",
               CreatedAt := createdAt }] ∧
      sentMails (memProvider.CreatePasswordResetRequest "test@test.test" memWorld).2.calls
        = sentMails memWorld.calls ++ [("test@test.test", value)] ∧
      (memProvider.Storage.CreateToken
          { ID := 0, EMail := "test@test.test", Token := value, Typ := "reset",
            CreatedAt := createdAt }
          (generateResetToken memProvider memStore).2).2
        = { memStoreAfterRequest with outbox := [] } ∧
      (memProvider.Mailer.SendPasswordResetRequestEMail "test@test.test" value
          [("myCustomClaim", "\"value\"")] { memStoreAfterRequest with outbox := [] }).2
        = memStoreAfterRequest ∧
      (memProvider.CreatePasswordResetRequest "test@test.test" memWorld).2.state
        = memStoreAfterRequest :=
  CreatePasswordResetRequest_success memProvider "test@test.test" memWorld
    ⟨"test@test.test", [112, 119], [("myCustomClaim", "\"value\"")]⟩
    memStore { memStoreAfterRequest with outbox := [] } memStoreAfterRequest 7 rfl
    (by decide) (by decide)

theorem deleteTokens_calls {σ : Type} (p : Provider σ) :
    ∀ (ts : List Token) (w w' : World σ), p.deleteTokens ts w = (none, w') →
      w'.calls = w.calls ++ ts.map fun t => Call.DeleteToken t.ID := by
  intro ts
  induction ts with
  | nil =>
    intro w w' h
    simp only [Provider.deleteTokens, Prod.mk.injEq, true_and] at h
    subst h
    simp
  | cons t ts ih =>
    intro w w' h
    rcases hd : p.Storage.DeleteToken t.ID w.state with ⟨err, s1⟩
    cases err with
    | some e => simp [Provider.deleteTokens, hd] at h
    | none =>
      simp only [Provider.deleteTokens, hd] at h
      rw [ih _ _ h]
      simp [World.step]

theorem deletedIDs_map_DeleteToken (ts : List Token) :
    deletedIDs (ts.map fun t => Call.DeleteToken t.ID) = ts.map Token.ID := by
  induction ts with
  | nil => rfl
  | cons t ts ih =>
    simp only [deletedIDs, List.map_cons, List.filterMap_cons] at ih ⊢
    rw [ih]

theorem deleteTokens_state {σ : Type} (p : Provider σ) :
    ∀ (ts : List Token) (w w' : World σ), p.deleteTokens ts w = (none, w') →
      w'.state = p.Storage.deleteAll (ts.map Token.ID) w.state := by
  intro ts
  induction ts with
  | nil =>
    intro w w' h
    simp only [Provider.deleteTokens, Prod.mk.injEq, true_and] at h
    subst h
    rfl
  | cons t ts ih =>
    intro w w' h
    rcases hd : p.Storage.DeleteToken t.ID w.state with ⟨err, s1⟩
    cases err with
    | some e => simp [Provider.deleteTokens, hd] at h
    | none =>
      simp only [Provider.deleteTokens, hd] at h
      rw [ih _ _ h]
      simp [World.step, Storage.deleteAll, hd]

/-- C9: after a successful `ResetPassword`, the ids handed to the repository's
delete-token operation are exactly the ids of the tokens of kind "reset" in the
repository's result for `(email, resetToken)`, every one of them and in that order; the
tokens of any other kind in the result are not deleted. The calls made are the lookup, the
user lookup, the update and these deletions, and the collaborators are left in the state
the repository reaches from the state after the update by deleting these ids one after
the other. -/
theorem ResetPassword_deletes_all_reset_tokens {σ : Type} (p : Provider σ)
    (email resetToken password : String) (w w' : World σ) (tokens : List Token)
    (u : User) (uerr uperr : Option GoError) (securedPassword : List Nat) (s1 s2 s3 s4 : σ)
    (hLookup : p.Storage.TokensByEMailAndToken email resetToken w.state = ((tokens, none), s1))
    (hUser : p.Storage.User email s1 = ((u, uerr), s2))
    (hHash : p.rt.bcryptPassword password s2 = (securedPassword, s3))
    (hUpdate : p.Storage.UpdateUser { u with Password := securedPassword } s3 = (uperr, s4))
    (hOK : p.ResetPassword email resetToken password w = (none, w')) :
    deletedIDs w'.calls
      = deletedIDs w.calls ++ (tokens.filter fun t => decide (t.Typ = "reset")).map Token.ID ∧
    w'.calls
      = w.calls ++ [Call.TokensByEMailAndToken email resetToken, Call.User email,
          Call.UpdateUser { u with Password := securedPassword }] ++
        ((tokens.filter fun t => decide (t.Typ = "reset")).map fun t => Call.DeleteToken t.ID) ∧
    w'.state
      = p.Storage.deleteAll ((tokens.filter fun t => decide (t.Typ = "reset")).map Token.ID) s4 := by
  simp only [Provider.ResetPassword, hLookup, tokenTypeReset, World.step, hUser] at hOK
  split at hOK
  · simp at hOK
  · cases uerr with
    | some e => simp at hOK
    | none =>
      simp only [hHash, hUpdate] at hOK
      cases uperr with
      | some e => simp at hOK
      | none =>
        simp only at hOK
        have hcalls := deleteTokens_calls p _ _ _ hOK
        have hstate := deleteTokens_state p _ _ _ hOK
        refine ⟨?_, ?_, hstate⟩
        · rw [hcalls]
          simp only [deletedIDs, List.filterMap_append, List.filterMap_cons,
            List.filterMap_nil, List.append_nil]
          exact congrArg _ (deletedIDs_map_DeleteToken _)
        · rw [hcalls]
          simp

theorem ResetPassword_deletes_all_reset_tokens_witness :
    deletedIDs (memProvider.ResetPassword "test@test.test" "myToken1" "newPassword" memWorld).2.calls
      = [4, 6] ∧
    (memProvider.ResetPassword "test@test.test" "myToken1" "newPassword" memWorld).2.state
      = memProvider.Storage.deleteAll [4, 6] memStoreAfterUpdate ∧
    (memProvider.ResetPassword "test@test.test" "myToken1" "newPassword" memWorld).2.state.tokens
      = [{ ID := 5, EMail := "test@test.test", Token := "myToken1", Typ := "other",
           CreatedAt := 0 }] :=
  have h := ResetPassword_deletes_all_reset_tokens memProvider
    "test@test.test" "myToken1" "newPassword" memWorld
    (memProvider.ResetPassword "test@test.test" "myToken1" "newPassword" memWorld).2
    memStore.tokens ⟨"test@test.test", [112, 119], [("myCustomClaim", "\"value\"")]⟩
    none none [110, 101, 119, 80, 97, 115, 115, 119, 111, 114, 100]
    memStore memStore memStore memStoreAfterUpdate
    (by decide) (by decide) (by decide) (by decide) rfl
  ⟨h.1, h.2.2, by rw [h.2.2]; decide⟩

/-- C10: for every error `e` the repository returns from the lookup by `(email, token)`,
`ResetPassword` fails with `e` wrapped in the context "failed to find all available
tokens": the message of the returned error is that context, ": " and the message of `e`.
The lookup is the only collaborator call and the collaborators are left in the state the
lookup left them in: no user lookup, no user update and no token deletion follows. -/
theorem ResetPassword_lookup_failure {σ : Type} (p : Provider σ)
    (email resetToken password : String) (w : World σ) (tokens : List Token) (e : GoError)
    (s1 : σ) (sentinelText : Sentinel → String)
    (hLookup : p.Storage.TokensByEMailAndToken email resetToken w.state
      = ((tokens, some e), s1)) :
    (p.ResetPassword email resetToken password w).1
      = some (.wrap "failed to find all available tokens" e) ∧
    (∀ err, (p.ResetPassword email resetToken password w).1 = some err →
      err.Error sentinelText
        = "failed to find all available tokens" ++ ": " ++ e.Error sentinelText) ∧
    (p.ResetPassword email resetToken password w).2.calls
      = w.calls ++ [Call.TokensByEMailAndToken email resetToken] ∧
    (p.ResetPassword email resetToken password w).2.state = s1 ∧
    updatedUsers (p.ResetPassword email resetToken password w).2.calls = updatedUsers w.calls ∧
    deletedIDs (p.ResetPassword email resetToken password w).2.calls = deletedIDs w.calls := by
  have hrun : p.ResetPassword email resetToken password w
      = (some (.wrap "failed to find all available tokens" e),
          w.step (.TokensByEMailAndToken email resetToken) s1) := by
    simp only [Provider.ResetPassword, hLookup]
  rw [hrun]
  refine ⟨rfl, ?_, ?_, rfl, ?_, ?_⟩
  · intro err herr
    simp only [Option.some.injEq] at herr
    subst herr
    rfl
  · simp [World.step]
  · simp [World.step, updatedUsers, List.filterMap_append]
  · simp [World.step, deletedIDs, List.filterMap_append]

theorem ResetPassword_lookup_failure_witness :
    ((mockProvider { dbTokenError := some (.other "unexpected error") }).ResetPassword
        "email" "resetToken" "newPassword" World.init).1
      = some (.wrap "failed to find all available tokens" (.other "unexpected error")) ∧
    (((mockProvider { dbTokenError := some (.other "unexpected error") }).ResetPassword
        "email" "resetToken" "newPassword" World.init).1.map (GoError.Error fun _ => ""))
      = some "failed to find all available tokens: unexpected error" ∧
    ((mockProvider { dbTokenError := some (.other "unexpected error") }).ResetPassword
        "email" "resetToken" "newPassword" World.init).2.calls
      = [Call.TokensByEMailAndToken "email" "resetToken"] :=
  have h := ResetPassword_lookup_failure
    (mockProvider { dbTokenError := some (.other "unexpected error") })
    "email" "resetToken" "newPassword" World.init [] (.other "unexpected error") ()
    (fun _ => "") rfl
  ⟨h.1, by rw [h.1]; decide, h.2.2.1⟩

/-! ## Transport layer: unrecognised errors, validation, and the login response -/

theorem loginHandler_unrecognised {π : Type} (s : ProviderIface π)
    (errText : GoError → String) (body : LoginRequestBody) (p p1 : π) (jwt : String)
    (e : GoError) (hEMail : body.EMail ≠ "") (hPassword : body.Password ≠ "")
    (hLogin : s.Login body.EMail body.Password p = ((jwt, some e), p1))
    (h1 : errorsIs e .ErrIncorrectPassword = false) (h2 : errorsIs e .ErrUserNotFound = false) :
    (loginHandler s errText (some body) p).w = errorResponse 500 "internal server error" := by
  simp only [loginHandler, if_neg hEMail, if_neg hPassword, hLogin, h1, h2]
  rfl

theorem passwordResetRequestHandler_unrecognised {π : Type} (s : ProviderIface π)
    (errText : GoError → String) (body : PasswordResetRequestBody) (p p1 : π)
    (e : GoError) (hEMail : body.EMail ≠ "")
    (hCreate : s.CreatePasswordResetRequest body.EMail p = (some e, p1))
    (h1 : errorsIs e .ErrUserNotFound = false) :
    (passwordResetRequestHandler s errText (some body) p).w
      = errorResponse 500 "internal server error" := by
  simp only [passwordResetRequestHandler, if_neg hEMail, hCreate, h1]
  rfl

theorem passwordResetHandler_unrecognised {π : Type} (s : ProviderIface π)
    (errText : GoError → String) (body : PasswordResetBody) (p p1 : π)
    (e : GoError) (hEMail : body.EMail ≠ "") (hResetToken : body.ResetToken ≠ "")
    (hPassword : body.Password ≠ "")
    (hReset : s.ResetPassword body.EMail body.ResetToken body.Password p = (some e, p1))
    (h1 : errorsIs e .ErrNoValidTokenFound = false) :
    (passwordResetHandler s errText (some body) p).w
      = errorResponse 500 "internal server error" := by
  simp only [passwordResetHandler, if_neg hEMail, if_neg hResetToken, if_neg hPassword,
    hReset, h1]
  rfl

/-- C11: in each of `loginHandler`, `passwordResetRequestHandler` and
`passwordResetHandler`, for a valid body and a provider error that matches none of the
kinds the handler recognises, the response is 500 with body
`{"message":"internal server error"}`; two runs that ended in two such errors give the
same response, so nothing of the cause reaches the client. -/
theorem handlers_internal_server_error {π π' : Type}
    (s : ProviderIface π) (s' : ProviderIface π') (errText errText' : GoError → String)
    (p p1 : π) (p' p1' : π') (e e' : GoError) :
    (∀ (body body' : LoginRequestBody) (jwt jwt' : String),
      body.EMail ≠ "" → body.Password ≠ "" → body'.EMail ≠ "" → body'.Password ≠ "" →
      s.Login body.EMail body.Password p = ((jwt, some e), p1) →
      s'.Login body'.EMail body'.Password p' = ((jwt', some e'), p1') →
      errorsIs e .ErrIncorrectPassword = false → errorsIs e .ErrUserNotFound = false →
      errorsIs e' .ErrIncorrectPassword = false → errorsIs e' .ErrUserNotFound = false →
      (loginHandler s errText (some body) p).w = errorResponse 500 "internal server error" ∧
      (loginHandler s errText (some body) p).w.statusCode = 500 ∧
      (loginHandler s errText (some body) p).w = (loginHandler s' errText' (some body') p').w) ∧
    (∀ (body body' : PasswordResetRequestBody),
      body.EMail ≠ "" → body'.EMail ≠ "" →
      s.CreatePasswordResetRequest body.EMail p = (some e, p1) →
      s'.CreatePasswordResetRequest body'.EMail p' = (some e', p1') →
      errorsIs e .ErrUserNotFound = false → errorsIs e' .ErrUserNotFound = false →
      (passwordResetRequestHandler s errText (some body) p).w
        = errorResponse 500 "internal server error" ∧
      (passwordResetRequestHandler s errText (some body) p).w.statusCode = 500 ∧
      (passwordResetRequestHandler s errText (some body) p).w
        = (passwordResetRequestHandler s' errText' (some body') p').w) ∧
    (∀ (body body' : PasswordResetBody),
      body.EMail ≠ "" → body.ResetToken ≠ "" → body.Password ≠ "" →
      body'.EMail ≠ "" → body'.ResetToken ≠ "" → body'.Password ≠ "" →
      s.ResetPassword body.EMail body.ResetToken body.Password p = (some e, p1) →
      s'.ResetPassword body'.EMail body'.ResetToken body'.Password p' = (some e', p1') →
      errorsIs e .ErrNoValidTokenFound = false → errorsIs e' .ErrNoValidTokenFound = false →
      (passwordResetHandler s errText (some body) p).w
        = errorResponse 500 "internal server error" ∧
      (passwordResetHandler s errText (some body) p).w.statusCode = 500 ∧
      (passwordResetHandler s errText (some body) p).w
        = (passwordResetHandler s' errText' (some body') p').w) := by
  refine ⟨?_, ?_, ?_⟩
  · intro body body' jwt jwt' hE hP hE' hP' hL hL' h1 h2 h1' h2'
    have ha := loginHandler_unrecognised s errText body p p1 jwt e hE hP hL h1 h2
    have hb := loginHandler_unrecognised s' errText' body' p' p1' jwt' e' hE' hP' hL' h1' h2'
    refine ⟨ha, ?_, ha.trans hb.symm⟩
    rw [ha]; rfl
  · intro body body' hE hE' hC hC' h1 h1'
    have ha := passwordResetRequestHandler_unrecognised s errText body p p1 e hE hC h1
    have hb := passwordResetRequestHandler_unrecognised s' errText' body' p' p1' e' hE' hC' h1'
    refine ⟨ha, ?_, ha.trans hb.symm⟩
    rw [ha]; rfl
  · intro body body' hE hT hP hE' hT' hP' hR hR' h1 h1'
    have ha := passwordResetHandler_unrecognised s errText body p p1 e hE hT hP hR h1
    have hb := passwordResetHandler_unrecognised s' errText' body' p' p1' e' hE' hT' hP' hR' h1'
    refine ⟨ha, ?_, ha.trans hb.symm⟩
    rw [ha]; rfl

theorem handlers_internal_server_error_witness :
    (loginHandler (constProvider "" (some (.other "nope"))) (fun _ => "")
        (some ⟨"not.found@test.test", "s3cr3t"⟩) ()).w
      = errorResponse 500 "internal server error" ∧
    (passwordResetRequestHandler (constProvider "" (some (.other "nope"))) (fun _ => "")
        (some ⟨"test.test@test.test"⟩) ()).w
      = (passwordResetRequestHandler (constProvider "" (some (.other "error no 42")))
          (fun _ => "") (some ⟨"test.test@test.test"⟩) ()).w ∧
    (passwordResetHandler (constProvider "" (some (.other "nope"))) (fun _ => "")
        (some ⟨"test.test@test.test", "myResetToken", "new_s3cr3t"⟩) ()).w.statusCode = 500 :=
  have h := handlers_internal_server_error
    (constProvider "" (some (.other "nope"))) (constProvider "" (some (.other "error no 42")))
    (fun _ => "") (fun _ => "") () () () () (.other "nope") (.other "error no 42")
  ⟨(h.1 ⟨"not.found@test.test", "s3cr3t"⟩ ⟨"not.found@test.test", "s3cr3t"⟩ "" ""
      (by decide) (by decide) (by decide) (by decide) rfl rfl rfl rfl rfl rfl).1,
   (h.2.1 ⟨"test.test@test.test"⟩ ⟨"test.test@test.test"⟩
      (by decide) (by decide) rfl rfl rfl rfl).2.2,
   (h.2.2 ⟨"test.test@test.test", "myResetToken", "new_s3cr3t"⟩
      ⟨"test.test@test.test", "myResetToken", "new_s3cr3t"⟩
      (by decide) (by decide) (by decide) (by decide) (by decide) (by decide)
      rfl rfl rfl rfl).2.1⟩

/-- C12: in `loginHandler`, for a decoded body: an empty email gives 400 "email must be
set" whatever the password; otherwise an empty password gives 400 "password must be set";
in both cases `Provider.Login` is not invoked and the provider state is untouched.
`Provider.Login` is invoked exactly when both fields are non-empty, once, with the email
and the password of the body. -/
theorem loginHandler_validation {π : Type} (s : ProviderIface π)
    (errText : GoError → String) (body : LoginRequestBody) (p : π) :
    (body.EMail = "" →
      (loginHandler s errText (some body) p).w = errorResponse 400 "email must be set" ∧
      (loginHandler s errText (some body) p).calls = [] ∧
      (loginHandler s errText (some body) p).p = p) ∧
    (body.EMail ≠ "" → body.Password = "" →
      (loginHandler s errText (some body) p).w = errorResponse 400 "password must be set" ∧
      (loginHandler s errText (some body) p).calls = [] ∧
      (loginHandler s errText (some body) p).p = p) ∧
    (body.EMail ≠ "" → body.Password ≠ "" →
      (loginHandler s errText (some body) p).calls
        = [ProviderCall.Login body.EMail body.Password] ∧
      (loginHandler s errText (some body) p).p = (s.Login body.EMail body.Password p).2) ∧
    ((loginHandler s errText (some body) p).calls ≠ [] ↔
      (body.EMail ≠ "" ∧ body.Password ≠ "")) := by
  have hA : body.EMail = "" →
      (loginHandler s errText (some body) p).w = errorResponse 400 "email must be set" ∧
      (loginHandler s errText (some body) p).calls = [] ∧
      (loginHandler s errText (some body) p).p = p := by
    intro hE
    simp only [loginHandler, if_pos hE, StatusBadRequest, writeError_fresh, and_self]
  have hB : body.EMail ≠ "" → body.Password = "" →
      (loginHandler s errText (some body) p).w = errorResponse 400 "password must be set" ∧
      (loginHandler s errText (some body) p).calls = [] ∧
      (loginHandler s errText (some body) p).p = p := by
    intro hE hP
    simp only [loginHandler, if_neg hE, if_pos hP, StatusBadRequest, writeError_fresh, and_self]
  have hC : body.EMail ≠ "" → body.Password ≠ "" →
      (loginHandler s errText (some body) p).calls
        = [ProviderCall.Login body.EMail body.Password] ∧
      (loginHandler s errText (some body) p).p = (s.Login body.EMail body.Password p).2 := by
    intro hE hP
    rcases hL : s.Login body.EMail body.Password p with ⟨⟨jwt, err⟩, p1⟩
    cases err with
    | none => simp only [loginHandler, if_neg hE, if_neg hP, hL, and_self]
    | some e =>
      simp only [loginHandler, if_neg hE, if_neg hP, hL]
      split <;> simp
  refine ⟨hA, hB, hC, ?_⟩
  constructor
  · intro hcalls
    by_cases hE : body.EMail = ""
    · exact absurd (hA hE).2.1 hcalls
    · by_cases hP : body.Password = ""
      · exact absurd (hB hE hP).2.1 hcalls
      · exact ⟨hE, hP⟩
  · rintro ⟨hE, hP⟩
    rw [(hC hE hP).1]
    simp

theorem loginHandler_validation_witness :
    (loginHandler (constProvider "myNewJWT" none) (fun _ => "")
        (some ⟨"", "s3cr3t"⟩) ()).w = errorResponse 400 "email must be set" ∧
    (loginHandler (constProvider "myNewJWT" none) (fun _ => "")
        (some ⟨"", "s3cr3t"⟩) ()).calls = [] ∧
    (loginHandler (constProvider "myNewJWT" none) (fun _ => "")
        (some ⟨"", "s3cr3t"⟩) ()).p = () :=
  (loginHandler_validation (constProvider "myNewJWT" none) (fun _ => "")
    ⟨"", "s3cr3t"⟩ ()).1 rfl

/-- C13: in `passwordResetHandler`, for a decoded body, the fields are checked in the order
email, reset_token, password: the response is 400 with the message of the first empty
field, and `Provider.ResetPassword` is not invoked when one of the three is empty; when
all three are non-empty it is invoked once, with the email, the reset token and the
password of the body. -/
theorem passwordResetHandler_validation {π : Type} (s : ProviderIface π)
    (errText : GoError → String) (body : PasswordResetBody) (p : π) :
    (body.EMail = "" →
      (passwordResetHandler s errText (some body) p).w
        = errorResponse 400 "email must be set" ∧
      (passwordResetHandler s errText (some body) p).calls = [] ∧
      (passwordResetHandler s errText (some body) p).p = p) ∧
    (body.EMail ≠ "" → body.ResetToken = "" →
      (passwordResetHandler s errText (some body) p).w
        = errorResponse 400 "reset-token must be set" ∧
      (passwordResetHandler s errText (some body) p).calls = [] ∧
      (passwordResetHandler s errText (some body) p).p = p) ∧
    (body.EMail ≠ "" → body.ResetToken ≠ "" → body.Password = "" →
      (passwordResetHandler s errText (some body) p).w
        = errorResponse 400 "password must be set" ∧
      (passwordResetHandler s errText (some body) p).calls = [] ∧
      (passwordResetHandler s errText (some body) p).p = p) ∧
    (body.EMail ≠ "" → body.ResetToken ≠ "" → body.Password ≠ "" →
      (passwordResetHandler s errText (some body) p).calls
        = [ProviderCall.ResetPassword body.EMail body.ResetToken body.Password] ∧
      (passwordResetHandler s errText (some body) p).p
        = (s.ResetPassword body.EMail body.ResetToken body.Password p).2) := by
  refine ⟨?_, ?_, ?_, ?_⟩
  · intro hE
    simp only [passwordResetHandler, if_pos hE, StatusBadRequest, writeError_fresh, and_self]
  · intro hE hT
    simp only [passwordResetHandler, if_neg hE, if_pos hT, StatusBadRequest, writeError_fresh,
      and_self]
  · intro hE hT hP
    simp only [passwordResetHandler, if_neg hE, if_neg hT, if_pos hP, StatusBadRequest,
      writeError_fresh, and_self]
  · intro hE hT hP
    rcases hR : s.ResetPassword body.EMail body.ResetToken body.Password p with ⟨err, p1⟩
    cases err with
    | none => simp only [passwordResetHandler, if_neg hE, if_neg hT, if_neg hP, hR, and_self]
    | some e =>
      simp only [passwordResetHandler, if_neg hE, if_neg hT, if_neg hP, hR]
      split <;> simp

theorem passwordResetHandler_validation_witness :
    (passwordResetHandler (constProvider "" none) (fun _ => "")
        (some ⟨"test.test@test.test", "", ""⟩) ()).w
      = errorResponse 400 "reset-token must be set" ∧
    (passwordResetHandler (constProvider "" none) (fun _ => "")
        (some ⟨"test.test@test.test", "", ""⟩) ()).calls = [] ∧
    (passwordResetHandler (constProvider "" none) (fun _ => "")
        (some ⟨"test.test@test.test", "", ""⟩) ()).p = () :=
  (passwordResetHandler_validation (constProvider "" none) (fun _ => "")
    ⟨"test.test@test.test", "", ""⟩ ()).2.1 (by decide) rfl

/-- C14: in `loginHandler`, for a body with non-empty email and password for which
`Provider.Login` returns the credential `j` and a nil error, the response has status 200
and its body is the single JSON object `{"access_token": j}`: the one field `access_token`,
holding `j` unchanged. -/
theorem loginHandler_success {π : Type} (s : ProviderIface π)
    (errText : GoError → String) (body : LoginRequestBody) (p p1 : π) (j : String)
    (hEMail : body.EMail ≠ "") (hPassword : body.Password ≠ "")
    (hLogin : s.Login body.EMail body.Password p = ((j, none), p1)) :
    (loginHandler s errText (some body) p).w.statusCode = 200 ∧
    (loginHandler s errText (some body) p).w.body = [[("access_token", j)]] := by
  simp only [loginHandler, if_neg hEMail, if_neg hPassword, hLogin]
  exact ⟨rfl, rfl⟩

theorem loginHandler_success_witness :
    (loginHandler (constProvider "myNewJWT" none) (fun _ => "")
        (some ⟨"test.test@test.test", "s3cr3t"⟩) ()).w.statusCode = 200 ∧
    (loginHandler (constProvider "myNewJWT" none) (fun _ => "")
        (some ⟨"test.test@test.test", "s3cr3t"⟩) ()).w.body = [[("access_token", "myNewJWT")]] :=
  loginHandler_success (constProvider "myNewJWT" none) (fun _ => "")
    ⟨"test.test@test.test", "s3cr3t"⟩ () () "myNewJWT" (by decide) (by decide) rfl

/-! ## Process configuration -/

theorem newConfig_eq (argParse : config → config × Option GoError) :
    newConfig argParse
      = if (argParse presetConfig).1.EnableAdminAPI = true ∧
            ((argParse presetConfig).1.AdminAPIPassword = "" ∨
              (argParse presetConfig).1.AdminAPIUsername = "") then
          ((argParse presetConfig).1, some errAdminCredentials)
        else argParse presetConfig := by
  rcases h : argParse presetConfig with ⟨cfg, err⟩
  simp only [newConfig, h]
  by_cases hc : cfg.EnableAdminAPI = true ∧ (cfg.AdminAPIPassword = "" ∨ cfg.AdminAPIUsername = "")
  · rw [if_pos hc, if_pos]
    simpa using hc
  · rw [if_neg hc, if_neg]
    simpa using hc

/-- C15: `newConfig` requires admin credentials when the admin API is enabled. For every
outcome `(cfg, err)` of `arg.Parse` whose own error is not the admin-credential error,
`newConfig` returns the error "admin-api-password and admin-api-username must be set if api
has been enabled" if and only if `cfg.EnableAdminAPI` is true and `cfg.AdminAPIUsername`
or `cfg.AdminAPIPassword` is empty; when `cfg.EnableAdminAPI` is false, `newConfig` returns
the error of `arg.Parse` whatever the credentials are. -/
theorem newConfig_admin_credentials (argParse : config → config × Option GoError)
    (hParse : (argParse presetConfig).2 ≠ some errAdminCredentials) :
    ((newConfig argParse).2
        = some (.other
            "admin-api-password and admin-api-username must be set if api has been enabled") ↔
      ((argParse presetConfig).1.EnableAdminAPI = true ∧
        ((argParse presetConfig).1.AdminAPIUsername = "" ∨
          (argParse presetConfig).1.AdminAPIPassword = ""))) ∧
    ((argParse presetConfig).1.EnableAdminAPI = false →
      (newConfig argParse).2 = (argParse presetConfig).2) := by
  rw [newConfig_eq]
  constructor
  · constructor
    · intro h
      by_contra hc
      rw [if_neg (by tauto)] at h
      exact hParse h
    · intro hc
      rw [if_pos (by tauto)]
      rfl
  · intro hf
    rw [if_neg (by simp [hf])]

theorem newConfig_admin_credentials_witness :
    ((newConfig (parseAdmin true "admin" "" none)).2
        = some (.other
            "admin-api-password and admin-api-username must be set if api has been enabled") ↔
      (((parseAdmin true "admin" "" none) presetConfig).1.EnableAdminAPI = true ∧
        (((parseAdmin true "admin" "" none) presetConfig).1.AdminAPIUsername = "" ∨
          ((parseAdmin true "admin" "" none) presetConfig).1.AdminAPIPassword = ""))) ∧
    (((parseAdmin true "admin" "" none) presetConfig).1.EnableAdminAPI = false →
      (newConfig (parseAdmin true "admin" "" none)).2
        = ((parseAdmin true "admin" "" none) presetConfig).2) :=
  newConfig_admin_credentials (parseAdmin true "admin" "" none) (by decide)

theorem newConfig_keeps_preset_EnableAdminAPI (argParse : config → config × Option GoError)
    (hUntouched : (argParse presetConfig).1.EnableAdminAPI = presetConfig.EnableAdminAPI) :
    (newConfig argParse).1.EnableAdminAPI = false := by
  rw [newConfig_eq]
  have hf : (argParse presetConfig).1.EnableAdminAPI = false := hUntouched
  rw [if_neg (by simp [hf])]
  exact hf

/-- C16: when argument parsing leaves `EnableAdminAPI` at its preset value (here only the
two required options are given), the configuration `newConfig` returns has
`EnableAdminAPI` equal to false, not to true. -/
theorem newConfig_default_EnableAdminAPI :
    (parseRequiredOnly presetConfig).1.EnableAdminAPI = presetConfig.EnableAdminAPI ∧
    (newConfig parseRequiredOnly).1.EnableAdminAPI = false ∧
    (newConfig parseRequiredOnly).1.EnableAdminAPI ≠ true ∧
    (newConfig parseRequiredOnly).2 = none := by
  decide

/-- C17: in `newConfig` the admin-credential check comes before the result of argument
parsing. For every outcome `(cfg, err)` of `arg.Parse` on the preset configuration
(`ServerAddress` ":80", `DatabasePort` 5432, `DatabaseName` "simple-auth-provider"): when
`cfg.EnableAdminAPI` is true and the username or the password is empty, `newConfig`
returns the admin-credential error, also when `err` is an error; otherwise it returns
`err` itself; in every case the configuration it returns is `cfg`. -/
theorem newConfig_precedence (argParse : config → config × Option GoError) :
    presetConfig.ServerAddress = ":80" ∧ presetConfig.DatabasePort = 5432 ∧
    presetConfig.DatabaseName = "simple-auth-provider" ∧
    (newConfig argParse).1 = (argParse presetConfig).1 ∧
    (((argParse presetConfig).1.EnableAdminAPI = true ∧
        ((argParse presetConfig).1.AdminAPIUsername = "" ∨
          (argParse presetConfig).1.AdminAPIPassword = "")) →
      (newConfig argParse).2 = some errAdminCredentials) ∧
    (¬ ((argParse presetConfig).1.EnableAdminAPI = true ∧
        ((argParse presetConfig).1.AdminAPIUsername = "" ∨
          (argParse presetConfig).1.AdminAPIPassword = "")) →
      (newConfig argParse).2 = (argParse presetConfig).2) := by
  refine ⟨rfl, rfl, rfl, ?_, ?_, ?_⟩
  · rw [newConfig_eq]
    split <;> rfl
  · intro hc
    rw [newConfig_eq, if_pos (by tauto)]
  · intro hc
    rw [newConfig_eq, if_neg (by tauto)]

theorem newConfig_precedence_witness :
    (newConfig (parseAdmin true "" "secret" (some (.other "unknown argument --foo")))).2
      = some errAdminCredentials :=
  (newConfig_precedence
    (parseAdmin true "" "secret" (some (.other "unknown argument --foo")))).2.2.2.2.1
    ⟨rfl, Or.inl rfl⟩

end SimpleJWTProvider
